import Mathlib

/-!
Shallow embedding of the ForecastKPI pipeline (`forecast_service.py`) and proofs of the
spec's claims about it.

Conventions of the embedding:
* Calendar dates in this program are always month starts (`YYYY-mm-01`), so a date is
  modelled as an absolute month index `idx : ℕ` with `year = idx / 12` and
  `month = idx % 12 + 1`; adding one calendar month is `idx + 1`.
* Numeric KPI values are modelled as `ℚ` (the code computes with floating point; none of
  the claims depends on rounding, only on which exact values are copied, averaged and fed
  back, so exact arithmetic is the faithful shallow model).
* The fitted XGBoost regressor is an opaque function and is modelled as an arbitrary
  `Predictor`; every theorem quantifies over it.  Fitting on an empty training frame
  raises in the library (and `ts.iloc[-1]` on the emptied frame raises as well), which the
  `except` clause of `forecast_kpi` turns into a "Forecast failed: ..." message; the
  embedding returns `forecastFailedMsg` on that path (the library's exception text is
  abstracted).
* Python's regex `\d` on a `str` pattern matches every Unicode decimal digit (category
  Nd), not just ASCII `0-9`; it is modelled by the inclusive codepoint range table
  `digitRanges` taken from the Unicode character database (660 codepoints, 62 ranges).
  The regex class `[A-Za-z]` is literal and stays ASCII.
* pandas schema handling: `'col' in df.columns` is a property of the frame, modelled as
  the flag `hasValueCol`; rows are modelled with a total value entry (the claims never
  exercise NaN propagation from a partially missing column).
-/

namespace ForecastService

/-! ## Filename Date Resolver (source lines 9-21)

`extract_date_from_filename` takes `os.path.basename`, strips the extension with
`os.path.splitext`, extracts the first regex match of `([A-Za-z]{3})(\d{4})`, and looks
the capitalized three letters up in `month_map` (built from `calendar.month_abbr` in the
C locale). -/

def isAsciiAlpha (c : Char) : Bool :=
  decide ((65 ≤ c.toNat ∧ c.toNat ≤ 90) ∨ (97 ≤ c.toNat ∧ c.toNat ≤ 122))

/-- The inclusive codepoint ranges of the Unicode decimal digits (category Nd): exactly
the characters Python's `\d` matches in a `str` pattern. -/
def digitRanges : List (ℕ × ℕ) :=
  [(48, 57), (1632, 1641), (1776, 1785), (1984, 1993), (2406, 2415), (2534, 2543),
   (2662, 2671), (2790, 2799), (2918, 2927), (3046, 3055), (3174, 3183), (3302, 3311),
   (3430, 3439), (3558, 3567), (3664, 3673), (3792, 3801), (3872, 3881), (4160, 4169),
   (4240, 4249), (6112, 6121), (6160, 6169), (6470, 6479), (6608, 6617), (6784, 6793),
   (6800, 6809), (6992, 7001), (7088, 7097), (7232, 7241), (7248, 7257), (42528, 42537),
   (43216, 43225), (43264, 43273), (43472, 43481), (43504, 43513), (43600, 43609),
   (44016, 44025), (65296, 65305), (66720, 66729), (68912, 68921), (69734, 69743),
   (69872, 69881), (69942, 69951), (70096, 70105), (70384, 70393), (70736, 70745),
   (70864, 70873), (71248, 71257), (71360, 71369), (71472, 71481), (71904, 71913),
   (72016, 72025), (72784, 72793), (73040, 73049), (73120, 73129), (92768, 92777),
   (92864, 92873), (93008, 93017), (120782, 120831), (123200, 123209), (123632, 123641),
   (125264, 125273), (130032, 130041)]

def isDigitChar (c : Char) : Bool :=
  digitRanges.any (fun r => decide (r.1 ≤ c.toNat ∧ c.toNat ≤ r.2))

/-- `os.path.basename`: the part of the path after the last `/`. -/
def basenameOf (p : List Char) : List Char :=
  (p.reverse.takeWhile (fun c => c != '/')).reverse

/-- The root part of `os.path.splitext`: split at the last dot, except that leading dots
of the name are part of the root. -/
def stemOf (b : List Char) : List Char :=
  if (b.dropWhile (fun c => c == '.')).contains '.' then
    b.takeWhile (fun c => c == '.') ++
      ((((b.dropWhile (fun c => c == '.')).reverse.dropWhile (fun c => c != '.')).drop 1).reverse)
  else b

/-- `month_map = {abbr: f"{i:02d}" for i, abbr in enumerate(month_abbr) if abbr}`. -/
def month_map : List (List Char × List Char) :=
  [("Jan".data, "01".data), ("Feb".data, "02".data), ("Mar".data, "03".data),
   ("Apr".data, "04".data), ("May".data, "05".data), ("Jun".data, "06".data),
   ("Jul".data, "07".data), ("Aug".data, "08".data), ("Sep".data, "09".data),
   ("Oct".data, "10".data), ("Nov".data, "11".data), ("Dec".data, "12".data)]

def month_map_get (key : List Char) : Option (List Char) :=
  (month_map.find? (fun p => p.1 == key)).map Prod.snd

/-- Python `str.capitalize`: first character upper-cased, the rest lower-cased. -/
def capitalize : List Char → List Char
  | [] => []
  | c :: cs => c.toUpper :: cs.map Char.toLower

/-- One attempted regex match of `([A-Za-z]{3})(\d{4})` anchored at the head of the
list: three letters immediately followed by four digits. -/
def matchAt7 : List Char → Option (List Char × List Char)
  | a :: b :: c :: d :: e :: f :: g :: _ =>
    if isAsciiAlpha a && isAsciiAlpha b && isAsciiAlpha c &&
       isDigitChar d && isDigitChar e && isDigitChar f && isDigitChar g then
      some ([a, b, c], [d, e, f, g])
    else none
  | _ => none

/-- The leftmost regex match, as found by `pd.Series([base]).str.extract`. -/
def findMatch : List Char → Option (List Char × List Char)
  | [] => none
  | x :: xs =>
    match matchAt7 (x :: xs) with
    | some p => some p
    | none => findMatch xs

/-- Position `i` of `l` starts a case-insensitive month abbreviation immediately
followed by four digits (a "valid month+year substring" in the spec's words). -/
def monthYearAt (l : List Char) (i : ℕ) : Bool :=
  match matchAt7 (l.drop i) with
  | some (mon, _) => (month_map_get (capitalize mon)).isSome
  | none => false

/-- Source lines 12-21.  Returns `some "YYYY-mm-01"` or `none`. -/
def extract_date_from_filename (filename : String) : Option String :=
  match findMatch (stemOf (basenameOf filename.data)) with
  | some (mon, yr) =>
    match month_map_get (capitalize mon) with
    | some mm => some (String.mk (yr ++ ('-' :: mm) ++ ['-', '0', '1']))
    | none => none
  | none => none

/-! ## Data model -/

/-- One row of the unified dataset: the four dimension columns, the resolved report
date (month index), the value column entry and the provenance tag. -/
structure Row where
  country : String
  technology : String
  zone : String
  kpi : String
  date : ℕ
  value : ℚ
  source_file : String
deriving DecidableEq

/-- A pandas frame, abstracted to the rows plus whether the column
`'Actual Value MAPS Networks'` is present in the schema. -/
structure DataFrame where
  hasValueCol : Bool
  rows : List Row
deriving DecidableEq

/-- `df['month'] = df['ds'].dt.month` for a month-start timestamp. -/
def monthOf (d : ℕ) : ℕ := d % 12 + 1

/-- `df['year'] = df['ds'].dt.year` for a month-start timestamp. -/
def yearOf (d : ℕ) : ℕ := d / 12

/-- Source lines 30-35: the four-dimension filter, case-sensitive equality. -/
def filterRows (df : DataFrame) (country tech zone kpi : String) : List Row :=
  df.rows.filter (fun r =>
    r.country == country && r.technology == tech && r.zone == zone && r.kpi == kpi)

/-- Insert a key into an ascending duplicate-free list, keeping it ascending and
duplicate-free. -/
def insertKey (d : ℕ) : List ℕ → List ℕ
  | [] => [d]
  | x :: xs => if d < x then d :: x :: xs else if d = x then x :: xs else x :: insertKey d xs

/-- The distinct dates of the rows, ascending: the group keys of
`filtered.groupby('Date')` (pandas sorts group keys). -/
def seriesDates (rows : List Row) : List ℕ :=
  (rows.map Row.date).foldr insertKey []

/-- Source lines 43-49: group by date, arithmetic mean of the value column per date,
sorted ascending by date. -/
def groupMeanByDate (rows : List Row) : List (ℕ × ℚ) :=
  (seriesDates rows).map (fun d =>
    (d, ((rows.filter (fun r => r.date == d)).map Row.value).sum /
        (((rows.filter (fun r => r.date == d)).map Row.value).length : ℚ)))

/-- The Series the Series Extractor produces for a dimension tuple. -/
def seriesOf (df : DataFrame) (country tech zone kpi : String) : List (ℕ × ℚ) :=
  groupMeanByDate (filterRows df country tech zone kpi)

/-- One trainable row after `create_features`, the three `shift` lag columns and
`dropna` (source lines 50-54). -/
structure FeatureRow where
  ds : ℕ
  month : ℕ
  year : ℕ
  y : ℚ
  lag1 : ℚ
  lag2 : ℚ
  lag3 : ℚ
deriving DecidableEq

/-- Source lines 52-54: `ts[f'y_lag_{lag}'] = ts['y'].shift(lag)` for lag 1..3 followed
by `ts.dropna()`: the row at position `p` survives iff `p ≥ 3`, and carries the values
at positions `p-1`, `p-2`, `p-3` as its lags. -/
def buildLagRows : List (ℕ × ℚ) → List FeatureRow
  | a :: b :: c :: d :: rest =>
    { ds := d.1, month := monthOf d.1, year := yearOf d.1, y := d.2,
      lag1 := c.2, lag2 := b.2, lag3 := a.2 } :: buildLagRows (b :: c :: d :: rest)
  | _ => []

/-- The fitted regressor, abstracted: (month, year, lag1, lag2, lag3) ↦ prediction. -/
def Predictor : Type := ℕ → ℕ → ℚ → ℚ → ℚ → ℚ

/-- Source lines 68-78: the autoregressive loop.  Each step predicts from the current
lag triple and then shifts it: `prev_lags = [pred] + prev_lags[:2]`. -/
def forecastLoop (predict : Predictor) : List ℕ → ℚ × ℚ × ℚ → List (ℕ × ℚ)
  | [], _ => []
  | d :: ds, (l1, l2, l3) =>
    (d, predict (monthOf d) (yearOf d) l1 l2 l3) ::
      forecastLoop predict ds (predict (monthOf d) (yearOf d) l1 l2 l3, l1, l2)

/-- `ts['ds'].max()` on a list of month indices. -/
def listMax (l : List ℕ) : ℕ := l.foldl Nat.max 0

def noDataMsg : String := "No data available for the selected inputs"

/-- ASCII apostrophe, as in the Python f-string `f"Expected column '{value_col}' not found"`. -/
def quoteMark : String := String.mk [Char.ofNat 39]

def missingColMsg : String :=
  "Expected column " ++ quoteMark ++ "Actual Value MAPS Networks" ++ quoteMark ++ " not found"

/-- The `except` clause of `forecast_kpi` (source lines 97-98) renders the caught
exception as `f"Forecast failed: {e}\n{trace}"`; the library-specific text is abstracted
into this fixed message. -/
def forecastFailedMsg : String := "Forecast failed"

inductive KpiResult where
  | ok (hist : List (ℕ × ℚ)) (forecast : List (ℕ × ℚ))
  | err (msg : String)
deriving DecidableEq

def KpiResult.forecastOf : KpiResult → Option (List (ℕ × ℚ))
  | .ok _ fc => some fc
  | .err _ => none

/-- Source lines 28-98.  The success value carries the chart's two series: `Actual`
(`ts['ds'], ts['y']` after `dropna`, i.e. the trainable rows) and `Forecast`.
When the trainable set is empty, `model.fit` (and `ts.iloc[-1]`) raise and the
`except` clause returns the failure message; otherwise the future dates are
`pd.date_range(ts['ds'].max() + MonthBegin(), periods=n, freq='MS')`, one calendar
month after the maximum (all dates being month starts), and the recursion is seeded
with the lag features of the last trainable row. -/
def forecast_kpi (predict : Predictor) (df : DataFrame) (country tech zone kpi : String)
    (forecast_months : ℕ) : KpiResult :=
  if filterRows df country tech zone kpi = [] then .err noDataMsg
  else if df.hasValueCol = false then .err missingColMsg
  else if hr : buildLagRows (groupMeanByDate (filterRows df country tech zone kpi)) = [] then
    .err forecastFailedMsg
  else
    KpiResult.ok
      ((buildLagRows (groupMeanByDate (filterRows df country tech zone kpi))).map
        (fun r => (r.ds, r.y)))
      (forecastLoop predict
        (List.range'
          (listMax ((buildLagRows (groupMeanByDate (filterRows df country tech zone kpi))).map
            FeatureRow.ds) + 1)
          forecast_months)
        (((buildLagRows (groupMeanByDate (filterRows df country tech zone kpi))).getLast hr).lag1,
         ((buildLagRows (groupMeanByDate (filterRows df country tech zone kpi))).getLast hr).lag2,
         ((buildLagRows (groupMeanByDate (filterRows df country tech zone kpi))).getLast hr).lag3))

/-! ## Pipeline (source lines 100-146)

Archive extraction and spreadsheet decoding are external collaborators; their outcomes
are the pipeline's input: either the archive fails to open (outer `except`), or it
yields a list of files, each with its name and either a decoded table or `none` when
`pd.read_excel` raises (the silent per-file skip of lines 121-130). -/

structure RawRow where
  country : String
  technology : String
  zone : String
  kpi : String
  value : ℚ
deriving DecidableEq

structure ExcelTable where
  hasValueCol : Bool
  rows : List RawRow
deriving DecidableEq

structure ExcelFile where
  name : String
  table : Option ExcelTable
deriving DecidableEq

inductive ArchiveInput where
  | corrupt (msg : String)
  | ok (files : List ExcelFile)

/-- `fn.lower().endswith((".xlsx", ".xls"))`, on the character list. -/
def isExcelName (s : String) : Bool :=
  ((s.data.map Char.toLower).reverse.take 5 == ".xlsx".data.reverse) ||
  ((s.data.map Char.toLower).reverse.take 4 == ".xls".data.reverse)

/-- `pd.to_datetime` on the resolver's fixed `YYYY-mm-01` output, as a month index. -/
def dateStrToIdx (s : List Char) : ℕ :=
  match s with
  | y1 :: y2 :: y3 :: y4 :: _ :: m1 :: m2 :: _ =>
    ((c2n y1 * 1000 + c2n y2 * 100 + c2n y3 * 10 + c2n y4) * 12 + (c2n m1 * 10 + c2n m2)) - 1
  | _ => 0
where c2n (c : Char) : ℕ := c.toNat - 48

/-- Lines 120-130: a file contributes a frame iff it decodes and its name resolves to a
date; its rows are tagged with the date and the source basename. -/
def fileRecord (f : ExcelFile) : Option DataFrame :=
  match f.table, extract_date_from_filename f.name with
  | some t, some ds =>
    some ⟨t.hasValueCol,
      t.rows.map (fun r =>
        ⟨r.country, r.technology, r.zone, r.kpi, dateStrToIdx ds.data, r.value,
         String.mk (basenameOf f.name.data)⟩)⟩
  | _, _ => none

/-- `pd.concat(records)`: rows are concatenated and the schema is the union, so the
value column is present iff some surviving file has it. -/
def concatFrames (l : List DataFrame) : DataFrame :=
  ⟨l.any DataFrame.hasValueCol, (l.map DataFrame.rows).flatten⟩

def excelFilesOf (files : List ExcelFile) : List ExcelFile :=
  files.filter (fun f => isExcelName f.name)

def recordsOf (files : List ExcelFile) : List DataFrame :=
  (excelFilesOf files).filterMap fileRecord

/-- The unified dataset `df_all` the pipeline hands to `forecast_kpi`. -/
def pipelineFrame (files : List ExcelFile) : DataFrame :=
  concatFrames (recordsOf files)

/-- The chart payload: the figure's two named scatter series. -/
structure ChartPayload where
  actual : List (ℕ × ℚ)
  forecast : List (ℕ × ℚ)
deriving DecidableEq

/-- The line-per-forecast-point text summary (lines 91-93); the float's 2-decimal
rendering is abstracted. -/
def summaryOf (fc : List (ℕ × ℚ)) : String :=
  String.intercalate "\n" (fc.map (fun p => toString p.1 ++ ": " ++ reprStr p.2))

def pipelineMsgNoExcel : String := "No Excel files found in ZIP archive"

def pipelineMsgNoValid : String := "No valid data found in Excel files"

/-- Source lines 100-146: `run_forecast_pipeline`, returning the
`(chart, summary, error)` triple. -/
def run_forecast_pipeline (predict : Predictor) (input : ArchiveInput)
    (country tech zone kpi : String) (forecast_months : ℕ) :
    Option ChartPayload × Option String × Option String :=
  match input with
  | .corrupt msg => (none, none, some ("Pipeline error: " ++ msg))
  | .ok files =>
    if excelFilesOf files = [] then (none, none, some pipelineMsgNoExcel)
    else if recordsOf files = [] then (none, none, some pipelineMsgNoValid)
    else
      match forecast_kpi predict (pipelineFrame files) country tech zone kpi forecast_months with
      | .err e => (none, none, some e)
      | .ok hist fc => (some ⟨hist, fc⟩, some (summaryOf fc), none)

/-! ## Concrete fixtures used by counterexamples and witnesses -/

def mkRow (d : ℕ) (v : ℚ) : Row :=
  ⟨"France", "4G", "ZoneA", "Availability", d, v, "f.xlsx"⟩

/-- A model that echoes its lag1 input; used to observe which value seeds the recursion. -/
def predictEcho : Predictor := fun _ _ l1 _ _ => l1

/-- Four-point history: values 0,1,2,3 at month indices 0,1,2,3. -/
def dfC1 : DataFrame := ⟨true, [mkRow 0 0, mkRow 1 1, mkRow 2 2, mkRow 3 3]⟩

/-- One-point history. -/
def dfOnePoint : DataFrame := ⟨true, [mkRow 0 5]⟩

/-- No rows and no value column. -/
def dfNoRows : DataFrame := ⟨false, []⟩

/-- A matching row but no value column in the schema. -/
def dfNoCol : DataFrame := ⟨false, [mkRow 0 10]⟩

/-- Two rows on the same date, values 10 and 12. -/
def dfDup : DataFrame := ⟨true, [mkRow 0 10, mkRow 0 12]⟩

def tsC5 : List (ℕ × ℚ) := [(0, 5), (1, 6), (2, 7), (3, 8)]

def tableJan : ExcelTable := ⟨true, [⟨"France", "4G", "ZoneA", "Availability", 10⟩]⟩

def tableFeb : ExcelTable := ⟨true, [⟨"France", "4G", "ZoneA", "Availability", 12⟩]⟩

def filesC9 : List ExcelFile :=
  [⟨"Jan2024.xlsx", some tableJan⟩, ⟨"Feb2024.xlsx", some tableFeb⟩]

/-! ## Helper lemmas: group keys are the sorted distinct dates -/

theorem mem_insertKey (d a : ℕ) : ∀ l : List ℕ, a ∈ insertKey d l ↔ a = d ∨ a ∈ l
  | [] => by simp [insertKey]
  | x :: xs => by
    rw [insertKey]
    split
    · simp only [List.mem_cons]
    · split
      · rename_i h1 h2
        subst h2
        simp only [List.mem_cons]
        tauto
      · simp only [List.mem_cons, mem_insertKey d a xs]
        tauto

theorem sorted_insertKey (d : ℕ) : ∀ l : List ℕ, l.Sorted (· < ·) → (insertKey d l).Sorted (· < ·)
  | [], _ => by simp [insertKey]
  | x :: xs, h => by
    obtain ⟨hx, hxs⟩ := List.pairwise_cons.mp h
    by_cases h1 : d < x
    · rw [insertKey, if_pos h1]
      refine List.pairwise_cons.mpr ⟨?_, h⟩
      intro y hy
      rcases List.mem_cons.mp hy with rfl | hy
      · exact h1
      · exact h1.trans (hx y hy)
    · by_cases h2 : d = x
      · subst h2
        rw [insertKey, if_neg h1, if_pos rfl]
        exact h
      · have hdx : x < d := by omega
        rw [insertKey, if_neg h1, if_neg h2]
        refine List.pairwise_cons.mpr ⟨?_, sorted_insertKey d xs hxs⟩
        intro y hy
        rcases (mem_insertKey d y xs).mp hy with rfl | hy
        · exact hdx
        · exact hx y hy

theorem seriesDates_sorted (rows : List Row) : (seriesDates rows).Sorted (· < ·) := by
  unfold seriesDates
  induction rows.map Row.date with
  | nil => simp
  | cons x xs ih => exact sorted_insertKey x _ ih

theorem mem_seriesDates (rows : List Row) (d : ℕ) :
    d ∈ seriesDates rows ↔ d ∈ rows.map Row.date := by
  unfold seriesDates
  induction rows.map Row.date with
  | nil => simp
  | cons x xs ih => rw [List.foldr_cons, mem_insertKey, List.mem_cons, ih]

theorem series_map_fst (rows : List Row) :
    (groupMeanByDate rows).map Prod.fst = seriesDates rows := by
  simp [groupMeanByDate, List.map_map, Function.comp_def]

/-! ## Helper lemmas: lag rows -/

theorem lagRows_ds : ∀ ts : List (ℕ × ℚ),
    (buildLagRows ts).map FeatureRow.ds = (ts.map Prod.fst).drop 3
  | [] => rfl
  | [_] => rfl
  | [_, _] => rfl
  | [_, _, _] => rfl
  | _ :: b :: c :: d :: rest => congrArg (List.cons d.1) (lagRows_ds (b :: c :: d :: rest))

theorem lagRows_length (ts : List (ℕ × ℚ)) : (buildLagRows ts).length = ts.length - 3 := by
  have h := congrArg List.length (lagRows_ds ts)
  simpa using h

theorem lagRows_get : ∀ (ts : List (ℕ × ℚ)) (i : ℕ) (h1 : i < (buildLagRows ts).length)
    (h2 : i + 3 < ts.length),
    (buildLagRows ts).get ⟨i, h1⟩ =
      { ds := (ts.get ⟨i+3, h2⟩).1, month := monthOf (ts.get ⟨i+3, h2⟩).1,
        year := yearOf (ts.get ⟨i+3, h2⟩).1, y := (ts.get ⟨i+3, h2⟩).2,
        lag1 := (ts.get ⟨i+2, by omega⟩).2, lag2 := (ts.get ⟨i+1, by omega⟩).2,
        lag3 := (ts.get ⟨i, by omega⟩).2 }
  | _ :: _ :: _ :: _ :: _, 0, _, _ => rfl
  | _ :: b :: c :: d :: rest, i+1, h1, h2 =>
    lagRows_get (b :: c :: d :: rest) i (Nat.lt_of_succ_lt_succ h1) (Nat.lt_of_succ_lt_succ h2)
  | [], i, h1, _ => absurd h1 (Nat.not_lt_zero i)
  | [_], i, h1, _ => absurd h1 (Nat.not_lt_zero i)
  | [_, _], i, h1, _ => absurd h1 (Nat.not_lt_zero i)
  | [_, _, _], i, h1, _ => absurd h1 (Nat.not_lt_zero i)

/-! ## Helper lemmas: the forecast loop and the date maximum -/

theorem forecastLoop_fst (predict : Predictor) : ∀ (ds : List ℕ) (lags : ℚ × ℚ × ℚ),
    (forecastLoop predict ds lags).map Prod.fst = ds
  | [], _ => rfl
  | d :: ds, (l1, l2, l3) =>
    congrArg (List.cons d) (forecastLoop_fst predict ds (predict (monthOf d) (yearOf d) l1 l2 l3, l1, l2))

theorem forecastLoop_length (predict : Predictor) (ds : List ℕ) (lags : ℚ × ℚ × ℚ) :
    (forecastLoop predict ds lags).length = ds.length := by
  have h := congrArg List.length (forecastLoop_fst predict ds lags)
  simpa using h

theorem foldlMax_le : ∀ (l : List ℕ) (a m : ℕ),
    List.foldl Nat.max a l ≤ m ↔ a ≤ m ∧ ∀ x ∈ l, x ≤ m
  | [], a, m => by simp
  | x :: t, a, m => by
    rw [List.foldl_cons, foldlMax_le t (Nat.max a x) m]
    simp only [Nat.max_le, List.forall_mem_cons]
    tauto

theorem mem_le_listMax (l : List ℕ) : ∀ x ∈ l, x ≤ listMax l :=
  ((foldlMax_le l 0 (listMax l)).mp le_rfl).2

theorem listMax_le (l : List ℕ) (m : ℕ) (h : ∀ x ∈ l, x ≤ m) : listMax l ≤ m :=
  (foldlMax_le l 0 m).mpr ⟨Nat.zero_le m, h⟩

theorem listMax_drop3_sorted (l : List ℕ) (hs : l.Sorted (· < ·)) (h : l.drop 3 ≠ []) :
    listMax (l.drop 3) = listMax l := by
  apply Nat.le_antisymm
  · exact listMax_le _ _ (fun x hx => mem_le_listMax l x (List.drop_subset 3 l hx))
  · apply listMax_le
    intro x hx
    have hx2 : x ∈ l.take 3 ++ l.drop 3 := by rw [List.take_append_drop]; exact hx
    rcases List.mem_append.mp hx2 with h1 | h2
    · obtain ⟨y, hy⟩ := List.exists_mem_of_ne_nil _ h
      have hp : (l.take 3 ++ l.drop 3).Pairwise (· < ·) := by
        rw [List.take_append_drop]; exact hs
      have hlt : x < y := (List.pairwise_append.mp hp).2.2 x h1 y hy
      exact le_trans (le_of_lt hlt) (mem_le_listMax _ y hy)
    · exact mem_le_listMax _ x h2

theorem series_len_pos_ne_nil (df : DataFrame) (c t z k : String)
    (h : 0 < (seriesOf df c t z k).length) : filterRows df c t z k ≠ [] := by
  intro he
  simp only [seriesOf] at h
  rw [he] at h
  simp [groupMeanByDate, seriesDates] at h

/-! ## Claims about the Series Extractor, Feature Builder and Forecast Engine -/

/-- C1: the claim states that the recursion is seeded with the three most recent known
series values, `lag1 = v[L-1]`, `lag2 = v[L-2]`, `lag3 = v[L-3]`.  The code instead seeds
`prev_lags` with the last training row's lag features, which are `v[L-2], v[L-3], v[L-4]`.
On the four-point history 0,1,2,3 (months 0..3), with the model that echoes its `lag1`
input, the first forecast comes out as 2 (`= v[L-2]`); under the claimed seeding it would
be 3 (`= v[L-1]`, the most recent value).  This closed evaluation exhibits the divergence. -/
theorem C1_seed_eval :
    forecast_kpi predictEcho dfC1 "France" "4G" "ZoneA" "Availability" 1
      = KpiResult.ok [(3, 3)] [(4, 2)] := by
  with_unfolding_all decide

/-- C2 counterexample: the claim as stated quantifies over every non-empty historical
series; for the one-point history (month 0, value 5) and positive horizon 1 the engine
does not return 1 ForecastPoint — the empty training set makes `model.fit`/`iloc[-1]`
raise and the result is the caught-exception error. -/
theorem C2_counterexample :
    forecast_kpi predictEcho dfOnePoint "France" "4G" "ZoneA" "Availability" 1
      = KpiResult.err forecastFailedMsg := by
  with_unfolding_all decide

/-- C2 (amended): for every dataset whose value column is present and whose extracted
series has at least 4 distinct month-start dates, and every positive horizon `n`,
`forecast_kpi` succeeds and returns exactly `n` ForecastPoints whose dates are the
strictly consecutive month indices starting one calendar month after the maximum
historical date. -/
theorem C2_forecast_dates (predict : Predictor) (df : DataFrame) (c t z k : String) (n : ℕ)
    (hcol : df.hasValueCol = true)
    (hlen : 4 ≤ (seriesOf df c t z k).length)
    (_hn : 0 < n) :
    Option.map (List.map Prod.fst) ((forecast_kpi predict df c t z k n).forecastOf)
      = some (List.range' (listMax ((seriesOf df c t z k).map Prod.fst) + 1) n) ∧
    Option.map List.length ((forecast_kpi predict df c t z k n).forecastOf) = some n := by
  have hfe : filterRows df c t z k ≠ [] :=
    series_len_pos_ne_nil df c t z k (by omega)
  have hlag : buildLagRows (groupMeanByDate (filterRows df c t z k)) ≠ [] := by
    have hl := lagRows_length (groupMeanByDate (filterRows df c t z k))
    intro he
    rw [he] at hl
    simp only [List.length_nil] at hl
    have : (seriesOf df c t z k).length = (groupMeanByDate (filterRows df c t z k)).length := rfl
    omega
  have hmax : listMax ((buildLagRows (groupMeanByDate (filterRows df c t z k))).map FeatureRow.ds)
      = listMax ((seriesOf df c t z k).map Prod.fst) := by
    rw [lagRows_ds]
    have hsor : ((seriesOf df c t z k).map Prod.fst).Sorted (· < ·) := by
      rw [seriesOf, series_map_fst]
      exact seriesDates_sorted _
    have hne : (((seriesOf df c t z k).map Prod.fst)).drop 3 ≠ [] := by
      intro he
      have := congrArg List.length he
      simp only [List.length_drop, List.length_map, List.length_nil] at this
      omega
    exact listMax_drop3_sorted _ hsor hne
  rw [forecast_kpi, if_neg hfe, if_neg (by simp [hcol]), dif_neg hlag]
  refine ⟨?_, ?_⟩
  · simp only [KpiResult.forecastOf, Option.map_some']
    rw [forecastLoop_fst, hmax]
  · simp only [KpiResult.forecastOf, Option.map_some']
    rw [forecastLoop_length, List.length_range']

/-- C2 witness: the amended theorem applied to the four-point history with horizon 2. -/
theorem C2_forecast_dates_witness :
    Option.map (List.map Prod.fst)
        ((forecast_kpi predictEcho dfC1 "France" "4G" "ZoneA" "Availability" 2).forecastOf)
      = some (List.range'
          (listMax ((seriesOf dfC1 "France" "4G" "ZoneA" "Availability").map Prod.fst) + 1) 2) ∧
    Option.map List.length
        ((forecast_kpi predictEcho dfC1 "France" "4G" "ZoneA" "Availability" 2).forecastOf)
      = some 2 :=
  C2_forecast_dates predictEcho dfC1 "France" "4G" "ZoneA" "Availability" 2 rfl
    (by with_unfolding_all decide) (by decide)

/-- C5: for every series of length `L`, the Feature Builder produces exactly
`max(0, L-3)` FeatureRows (ℕ-subtraction), and row `i` of the trainable set corresponds
to series position `i+3`: its target is the value there and its `lag_k` is the series
value at position `i+3-k` for `k ∈ {1,2,3}` — so exactly the first 3 positions are
dropped. -/
theorem C5_feature_rows (ts : List (ℕ × ℚ)) :
    (buildLagRows ts).length = ts.length - 3 ∧
    (∀ i, (h1 : i < (buildLagRows ts).length) → (h2 : i + 3 < ts.length) →
      ((buildLagRows ts).get ⟨i, h1⟩).y = (ts.get ⟨i+3, h2⟩).2 ∧
      ((buildLagRows ts).get ⟨i, h1⟩).lag1 = (ts.get ⟨i+2, by omega⟩).2 ∧
      ((buildLagRows ts).get ⟨i, h1⟩).lag2 = (ts.get ⟨i+1, by omega⟩).2 ∧
      ((buildLagRows ts).get ⟨i, h1⟩).lag3 = (ts.get ⟨i, by omega⟩).2) := by
  refine ⟨lagRows_length ts, ?_⟩
  intro i h1 h2
  rw [lagRows_get ts i h1 h2]
  exact ⟨rfl, rfl, rfl, rfl⟩

/-- C5 witness: the four-point series 5,6,7,8 has exactly one trainable row, whose
target is the value at position 3 and whose lags are the values at positions 2, 1, 0. -/
theorem C5_feature_rows_witness :
    (buildLagRows tsC5).length = tsC5.length - 3 ∧
    (((buildLagRows tsC5).get ⟨0, by decide⟩).y = (tsC5.get ⟨3, by decide⟩).2 ∧
     ((buildLagRows tsC5).get ⟨0, by decide⟩).lag1 = (tsC5.get ⟨2, by decide⟩).2 ∧
     ((buildLagRows tsC5).get ⟨0, by decide⟩).lag2 = (tsC5.get ⟨1, by decide⟩).2 ∧
     ((buildLagRows tsC5).get ⟨0, by decide⟩).lag3 = (tsC5.get ⟨0, by decide⟩).2) :=
  ⟨(C5_feature_rows tsC5).1, (C5_feature_rows tsC5).2 0 (by decide) (by decide)⟩

/-- C6: for every archive outcome, dimension tuple and horizon, the pipeline returns a
triple in which exactly one of the chart payload and the error message is non-null, and
the summary text is non-null exactly when the chart is (the embedded function is total:
every error is converted to a returned message, never propagated). -/
theorem C6_result_shape (predict : Predictor) (input : ArchiveInput) (c t z k : String) (n : ℕ) :
    ((run_forecast_pipeline predict input c t z k n).1.isSome
        = !(run_forecast_pipeline predict input c t z k n).2.2.isSome) ∧
    ((run_forecast_pipeline predict input c t z k n).2.1.isSome
        = (run_forecast_pipeline predict input c t z k n).1.isSome) := by
  cases input with
  | corrupt msg => simp [run_forecast_pipeline]
  | ok files =>
    by_cases h1 : excelFilesOf files = []
    · simp [run_forecast_pipeline, h1]
    · by_cases h2 : recordsOf files = []
      · simp [run_forecast_pipeline, h1, h2]
      · cases hk : forecast_kpi predict (pipelineFrame files) c t z k n with
        | ok hist fc => simp [run_forecast_pipeline, h1, h2, hk]
        | err e => simp [run_forecast_pipeline, h1, h2, hk]

/-- C7: when the four-dimension case-sensitive filter yields zero rows the result is the
error "No data available for the selected inputs" with no chart; when it yields rows but
the column `Actual Value MAPS Networks` is absent from the schema, the result is the
error naming that column, with no chart. -/
theorem C7_error_checks (predict : Predictor) (df : DataFrame) (c t z k : String) (n : ℕ) :
    (filterRows df c t z k = [] →
      forecast_kpi predict df c t z k n = KpiResult.err noDataMsg) ∧
    (filterRows df c t z k ≠ [] → df.hasValueCol = false →
      forecast_kpi predict df c t z k n = KpiResult.err missingColMsg) := by
  constructor
  · intro h
    rw [forecast_kpi, if_pos h]
  · intro h1 h2
    rw [forecast_kpi, if_neg h1, if_pos h2]

/-- C7 witness: a dataset with no matching rows, and one with a matching row but no
value column. -/
theorem C7_error_checks_witness :
    forecast_kpi predictEcho dfNoRows "France" "4G" "ZoneA" "Availability" 1
      = KpiResult.err noDataMsg ∧
    forecast_kpi predictEcho dfNoCol "France" "4G" "ZoneA" "Availability" 1
      = KpiResult.err missingColMsg :=
  ⟨(C7_error_checks predictEcho dfNoRows "France" "4G" "ZoneA" "Availability" 1).1 (by decide),
   (C7_error_checks predictEcho dfNoCol "France" "4G" "ZoneA" "Availability" 1).2
     (by decide) (by decide)⟩

/-- C8: every Series produced by the Series Extractor has strictly increasing dates,
its dates are exactly the distinct dates of the filtered rows, and each value, times the
number of filtered rows carrying that date (a nonzero count), equals the sum of their
value-column entries — i.e. it is their arithmetic mean. -/
theorem C8_series_invariants (df : DataFrame) (c t z k : String) :
    List.Sorted (· < ·) ((seriesOf df c t z k).map Prod.fst) ∧
    (∀ d : ℕ, d ∈ (seriesOf df c t z k).map Prod.fst ↔
      d ∈ (filterRows df c t z k).map Row.date) ∧
    (∀ p ∈ seriesOf df c t z k,
      ((filterRows df c t z k).filter (fun r => r.date == p.1)).map Row.value ≠ [] ∧
      p.2 * ((((filterRows df c t z k).filter (fun r => r.date == p.1)).map Row.value).length : ℚ)
        = (((filterRows df c t z k).filter (fun r => r.date == p.1)).map Row.value).sum) := by
  refine ⟨?_, ?_, ?_⟩
  · rw [seriesOf, series_map_fst]
    exact seriesDates_sorted _
  · intro d
    rw [seriesOf, series_map_fst, mem_seriesDates]
  · intro p hp
    rw [seriesOf, groupMeanByDate] at hp
    obtain ⟨d, hd, hpd⟩ := List.mem_map.mp hp
    subst hpd
    have hd2 : d ∈ (filterRows df c t z k).map Row.date := (mem_seriesDates _ _).mp hd
    obtain ⟨r, hr, hrd⟩ := List.mem_map.mp hd2
    have hrf : r ∈ (filterRows df c t z k).filter (fun s => s.date == d) :=
      List.mem_filter.mpr ⟨hr, by simp [hrd]⟩
    have hne : ((filterRows df c t z k).filter (fun s => s.date == d)).map Row.value ≠ [] := by
      intro he
      have hmem := List.mem_map_of_mem Row.value hrf
      rw [he] at hmem
      simp at hmem
    refine ⟨hne, ?_⟩
    have hpos : 0 < (((filterRows df c t z k).filter (fun s => s.date == d)).map Row.value).length :=
      List.length_pos.mpr hne
    have hcast : ((((filterRows df c t z k).filter (fun s => s.date == d)).map Row.value).length : ℚ)
        ≠ 0 := Nat.cast_ne_zero.mpr (Nat.pos_iff_ne_zero.mp hpos)
    exact div_mul_cancel₀ _ hcast

/-- C8 witness: two rows share date 0 with values 10 and 12; the series holds their
mean 11, and 11 times the count 2 equals the sum 22. -/
theorem C8_series_invariants_witness :
    ((0 : ℕ), (11 : ℚ)) ∈ seriesOf dfDup "France" "4G" "ZoneA" "Availability" ∧
    (((filterRows dfDup "France" "4G" "ZoneA" "Availability").filter
        (fun r => r.date == (0 : ℕ))).map Row.value ≠ [] ∧
     (11 : ℚ) * ((((filterRows dfDup "France" "4G" "ZoneA" "Availability").filter
        (fun r => r.date == (0 : ℕ))).map Row.value).length : ℚ)
        = (((filterRows dfDup "France" "4G" "ZoneA" "Availability").filter
        (fun r => r.date == (0 : ℕ))).map Row.value).sum) :=
  ⟨by with_unfolding_all decide,
   (C8_series_invariants dfDup "France" "4G" "ZoneA" "Availability").2.2 (0, 11)
     (by with_unfolding_all decide)⟩

/-- C9: whenever the unified dataset built from the archive has the value column and its
extracted series for the requested dimensions has exactly 2 points, the Feature Builder
yields zero usable rows and the pipeline returns the caught-exception
(`InsufficientHistory`-class) error with no chart and no summary. -/
theorem C9_insufficient_history (predict : Predictor) (files : List ExcelFile)
    (c t z k : String) (n : ℕ)
    (hcol : (pipelineFrame files).hasValueCol = true)
    (hlen : (seriesOf (pipelineFrame files) c t z k).length = 2) :
    buildLagRows (seriesOf (pipelineFrame files) c t z k) = [] ∧
    run_forecast_pipeline predict (ArchiveInput.ok files) c t z k n
      = (none, none, some forecastFailedMsg) := by
  have hlag : buildLagRows (seriesOf (pipelineFrame files) c t z k) = [] := by
    have h := lagRows_length (seriesOf (pipelineFrame files) c t z k)
    rw [hlen] at h
    exact List.eq_nil_of_length_eq_zero h
  refine ⟨hlag, ?_⟩
  have hfe : filterRows (pipelineFrame files) c t z k ≠ [] :=
    series_len_pos_ne_nil _ c t z k (by omega)
  have hrows : (pipelineFrame files).rows ≠ [] := by
    intro h
    apply hfe
    simp [filterRows, h]
  have hrecs : recordsOf files ≠ [] := by
    intro h
    apply hrows
    simp [pipelineFrame, concatFrames, h]
  have hex : excelFilesOf files ≠ [] := by
    intro h
    apply hrecs
    simp [recordsOf, h]
  have hlag2 : buildLagRows (groupMeanByDate (filterRows (pipelineFrame files) c t z k)) = [] :=
    hlag
  have hk : forecast_kpi predict (pipelineFrame files) c t z k n
      = KpiResult.err forecastFailedMsg := by
    rw [forecast_kpi, if_neg hfe, if_neg (by simp [hcol]), dif_pos hlag2]
  simp only [run_forecast_pipeline, if_neg hex, if_neg hrecs, hk]

/-- C9 witness: the two-file scenario "Jan2024.xlsx"/"Feb2024.xlsx", one matching
(France, 4G, ZoneA, Availability) row each with values 10 and 12; the unified series is
[(2024-01, 10), (2024-02, 12)], two points, and the pipeline reports the error. -/
theorem C9_insufficient_history_witness :
    buildLagRows (seriesOf (pipelineFrame filesC9) "France" "4G" "ZoneA" "Availability") = [] ∧
    run_forecast_pipeline predictEcho (ArchiveInput.ok filesC9)
        "France" "4G" "ZoneA" "Availability" 3
      = (none, none, some forecastFailedMsg) :=
  C9_insufficient_history predictEcho filesC9 "France" "4G" "ZoneA" "Availability" 3
    (by decide) (by with_unfolding_all decide)

/-- C10: when the filter yields zero rows and the value column is also absent, the
returned error is the no-data message (the empty-filter check runs first), and a
missing-column error is only ever produced when at least one row matched the filter. -/
theorem C10_check_order (predict : Predictor) (df : DataFrame) (c t z k : String) (n : ℕ) :
    (filterRows df c t z k = [] → df.hasValueCol = false →
      forecast_kpi predict df c t z k n = KpiResult.err noDataMsg) ∧
    (forecast_kpi predict df c t z k n = KpiResult.err missingColMsg →
      filterRows df c t z k ≠ []) := by
  constructor
  · intro h _
    rw [forecast_kpi, if_pos h]
  · intro hres h
    rw [forecast_kpi, if_pos h] at hres
    exact absurd hres (by decide)

/-- C10 witness: the empty no-column dataset reports the no-data error, and a dataset
that reports the missing-column error indeed has a matching row. -/
theorem C10_check_order_witness :
    forecast_kpi predictEcho dfNoRows "France" "4G" "ZoneA" "Availability" 2
      = KpiResult.err noDataMsg ∧
    filterRows dfNoCol "France" "4G" "ZoneA" "Availability" ≠ [] :=
  ⟨(C10_check_order predictEcho dfNoRows "France" "4G" "ZoneA" "Availability" 2).1
      (by decide) (by decide),
   (C10_check_order predictEcho dfNoCol "France" "4G" "ZoneA" "Availability" 2).2 (by decide)⟩

/-! ## Helper lemmas: the filename resolver -/

theorem alpha_ne_slash {c : Char} (h : isAsciiAlpha c = true) : c ≠ '/' :=
  fun he => absurd (he ▸ h) (by decide)

theorem alpha_ne_dot {c : Char} (h : isAsciiAlpha c = true) : c ≠ '.' :=
  fun he => absurd (he ▸ h) (by decide)

theorem digit_ne_slash {c : Char} (h : isDigitChar c = true) : c ≠ '/' :=
  fun he => absurd (he ▸ h) (by decide)

theorem digit_ne_dot {c : Char} (h : isDigitChar c = true) : c ≠ '.' :=
  fun he => absurd (he ▸ h) (by decide)

theorem takeWhile_all {p : Char → Bool} : ∀ l : List Char,
    (∀ c ∈ l, p c = true) → l.takeWhile p = l
  | [], _ => rfl
  | x :: xs, h => by
    rw [List.takeWhile_cons, if_pos (h x (List.mem_cons_self x xs))]
    exact congrArg (List.cons x) (takeWhile_all xs fun c hc => h c (List.mem_cons_of_mem x hc))

theorem dropWhile_all_append {p : Char → Bool} : ∀ (l1 l2 : List Char),
    (∀ c ∈ l1, p c = true) → (l1 ++ l2).dropWhile p = l2.dropWhile p
  | [], _, _ => rfl
  | x :: xs, l2, h => by
    rw [List.cons_append, List.dropWhile_cons, if_pos (h x (List.mem_cons_self x xs))]
    exact dropWhile_all_append xs l2 fun c hc => h c (List.mem_cons_of_mem x hc)

theorem basenameOf_all (l : List Char) (h : ∀ c ∈ l, c ≠ '/') : basenameOf l = l := by
  unfold basenameOf
  have h2 : ∀ c ∈ l.reverse, (c != '/') = true := by
    intro c hc
    simpa using h c (List.mem_reverse.mp hc)
  rw [takeWhile_all l.reverse h2, List.reverse_reverse]

theorem stemOf_append (x : Char) (m e : List Char) (hx : x ≠ '.')
    (he : ∀ c ∈ e, c ≠ '.') :
    stemOf ((x :: m) ++ '.' :: e) = x :: m := by
  have hxb : ¬((x == '.') = true) := by simpa using hx
  have hdw : ((x :: m) ++ '.' :: e).dropWhile (fun c => c == '.') = (x :: m) ++ '.' :: e := by
    rw [List.cons_append, List.dropWhile_cons, if_neg hxb]
  have htw : ((x :: m) ++ '.' :: e).takeWhile (fun c => c == '.') = [] := by
    rw [List.cons_append, List.takeWhile_cons, if_neg hxb]
  have hcont : ((x :: m) ++ '.' :: e).contains '.' = true := by
    simp
  have hrev : ((x :: m) ++ '.' :: e).reverse = e.reverse ++ '.' :: (x :: m).reverse := by
    rw [List.reverse_append, List.reverse_cons, List.append_assoc, List.singleton_append]
  have hdw2 : (((x :: m) ++ '.' :: e).reverse).dropWhile (fun c => c != '.')
      = '.' :: (x :: m).reverse := by
    rw [hrev, dropWhile_all_append e.reverse ('.' :: (x :: m).reverse)
      (fun c hc => by simpa using he c (List.mem_reverse.mp hc))]
    rw [List.dropWhile_cons, if_neg (by decide)]
  unfold stemOf
  rw [hdw, if_pos hcont, htw, hdw2, List.nil_append]
  simp

theorem findMatch_leftmost : ∀ (l : List Char) (i : ℕ) (p : List Char × List Char),
    matchAt7 (l.drop i) = some p → (∀ j, j < i → matchAt7 (l.drop j) = none) →
    findMatch l = some p
  | [], _, _, h, _ => by
    rw [List.drop_nil] at h
    simp [matchAt7] at h
  | x :: xs, 0, p, h, _ => by
    rw [List.drop_zero] at h
    rw [findMatch, h]
  | x :: xs, i+1, p, h, hmin => by
    have h0 : matchAt7 (x :: xs) = none := by
      have h1 := hmin 0 (Nat.succ_pos i)
      simpa using h1
    rw [findMatch, h0]
    exact findMatch_leftmost xs i p (by simpa using h)
      (fun j hj => by simpa using hmin (j+1) (Nat.succ_lt_succ hj))

theorem findMatch_sound : ∀ (l : List Char) (p : List Char × List Char),
    findMatch l = some p → ∃ i, i < l.length ∧ matchAt7 (l.drop i) = some p
  | [], p, h => by simp [findMatch] at h
  | x :: xs, p, h => by
    rw [findMatch] at h
    cases hm : matchAt7 (x :: xs) with
    | some q =>
      rw [hm] at h
      simp only [Option.some.injEq] at h
      subst h
      exact ⟨0, by simp, by rw [List.drop_zero]; exact hm⟩
    | none =>
      rw [hm] at h
      simp only at h
      obtain ⟨i, hi, hmi⟩ := findMatch_sound xs p h
      exact ⟨i + 1, Nat.succ_lt_succ hi, by simpa using hmi⟩

/-! ## Claims about the Filename Date Resolver -/

/-- C3 counterexample: the stem of `"Xyz2024Jan2024.xlsx"` contains the valid
month+year substring `Jan2024` (at position 7), yet resolution returns no date —
because the leftmost three-letters+four-digits occurrence `Xyz2024` wins and its
letters are not a month abbreviation.  This refutes the claim as stated. -/
theorem C3_counterexample :
    monthYearAt (stemOf (basenameOf ("Xyz2024Jan2024.xlsx".data))) 7 = true ∧
    extract_date_from_filename "Xyz2024Jan2024.xlsx" = none :=
  ⟨by decide, by decide⟩

/-- C3 (amended): the resolver uses the first (leftmost) occurrence of three ASCII
letters immediately followed by four decimal digits (Unicode `\d`) in the stem of the
file's base name.  When that occurrence's letters, capitalized, are a supported month
abbreviation with number `mm`, the result is the date string `YYYY-mm-01` built from
that occurrence; when they are not, the result is no date — the scan does not continue
to a later occurrence. -/
theorem C3_first_match_resolution (filename : String) (i : ℕ) (mon yr : List Char)
    (hmatch : matchAt7 ((stemOf (basenameOf filename.data)).drop i) = some (mon, yr))
    (hmin : ∀ j, j < i → matchAt7 ((stemOf (basenameOf filename.data)).drop j) = none) :
    (∀ mm, month_map_get (capitalize mon) = some mm →
      extract_date_from_filename filename
        = some (String.mk (yr ++ ('-' :: mm) ++ ['-', '0', '1']))) ∧
    (month_map_get (capitalize mon) = none →
      extract_date_from_filename filename = none) := by
  constructor
  · intro mm hlook
    unfold extract_date_from_filename
    rw [findMatch_leftmost _ i (mon, yr) hmatch hmin]
    dsimp only
    rw [hlook]
  · intro hlook
    unfold extract_date_from_filename
    rw [findMatch_leftmost _ i (mon, yr) hmatch hmin]
    dsimp only
    rw [hlook]

/-- C3 witness: `"Jan2024.xlsx"` resolves via the leftmost (position 0) match, and
`"Xyz2024.xlsx"`, whose leftmost match has the non-month letters `Xyz`, resolves to no
date. -/
theorem C3_first_match_resolution_witness :
    extract_date_from_filename "Jan2024.xlsx" = some "2024-01-01" ∧
    extract_date_from_filename "Xyz2024.xlsx" = none :=
  ⟨by
    rw [(C3_first_match_resolution "Jan2024.xlsx" 0 "Jan".data "2024".data
      (by decide) (fun j hj => absurd hj (Nat.not_lt_zero j))).1 "01".data (by decide)]
    decide,
   (C3_first_match_resolution "Xyz2024.xlsx" 0 "Xyz".data "2024".data
      (by decide) (fun j hj => absurd hj (Nat.not_lt_zero j))).2 (by decide)⟩

/-- C4: for every month abbreviation in any letter case (three letters whose
capitalization is a `month_map` key with number `mm`) and every 4-digit year,
`"{M}{Y}_report.xlsx"` resolves to `Y-mm-01`; and every filename whose stem contains no
occurrence of a case-insensitive month abbreviation immediately followed by four digits
resolves to no date (`none`) rather than an error. -/
theorem C4_month_year_resolution :
    (∀ (c1 c2 c3 d1 d2 d3 d4 : Char) (mm : List Char),
      isAsciiAlpha c1 = true → isAsciiAlpha c2 = true → isAsciiAlpha c3 = true →
      isDigitChar d1 = true → isDigitChar d2 = true → isDigitChar d3 = true →
      isDigitChar d4 = true →
      month_map_get (capitalize [c1, c2, c3]) = some mm →
      extract_date_from_filename
          (String.mk ([c1, c2, c3, d1, d2, d3, d4] ++ "_report.xlsx".data))
        = some (String.mk ([d1, d2, d3, d4] ++ ('-' :: mm) ++ ['-', '0', '1']))) ∧
    (∀ filename : String,
      (∀ i, i < (stemOf (basenameOf filename.data)).length →
        monthYearAt (stemOf (basenameOf filename.data)) i = false) →
      extract_date_from_filename filename = none) := by
  constructor
  · intro c1 c2 c3 d1 d2 d3 d4 mm ha1 ha2 ha3 hd1 hd2 hd3 hd4 hlook
    have hrep : ∀ c ∈ "_report.xlsx".data, c ≠ '/' := by decide
    have hnoslash : ∀ c ∈ [c1, c2, c3, d1, d2, d3, d4] ++ "_report.xlsx".data, c ≠ '/' := by
      intro c hc
      rcases List.mem_append.mp hc with h | h
      · simp only [List.mem_cons, List.not_mem_nil, or_false] at h
        rcases h with rfl | rfl | rfl | rfl | rfl | rfl | rfl
        · exact alpha_ne_slash ha1
        · exact alpha_ne_slash ha2
        · exact alpha_ne_slash ha3
        · exact digit_ne_slash hd1
        · exact digit_ne_slash hd2
        · exact digit_ne_slash hd3
        · exact digit_ne_slash hd4
      · exact hrep c h
    have hb : basenameOf ([c1, c2, c3, d1, d2, d3, d4] ++ "_report.xlsx".data)
        = [c1, c2, c3, d1, d2, d3, d4] ++ "_report.xlsx".data :=
      basenameOf_all _ hnoslash
    have hs : stemOf ([c1, c2, c3, d1, d2, d3, d4] ++ "_report.xlsx".data)
        = [c1, c2, c3, d1, d2, d3, d4] ++ "_report".data :=
      stemOf_append c1 ([c2, c3, d1, d2, d3, d4] ++ "_report".data) ("xlsx".data)
        (alpha_ne_dot ha1) (by decide)
    have hm7 : matchAt7 ([c1, c2, c3, d1, d2, d3, d4] ++ "_report".data)
        = some ([c1, c2, c3], [d1, d2, d3, d4]) := by
      show matchAt7 (c1 :: c2 :: c3 :: d1 :: d2 :: d3 :: d4 :: "_report".data) = _
      rw [matchAt7]
      simp [ha1, ha2, ha3, hd1, hd2, hd3, hd4]
    unfold extract_date_from_filename
    rw [show (String.mk ([c1, c2, c3, d1, d2, d3, d4] ++ "_report.xlsx".data)).data
        = [c1, c2, c3, d1, d2, d3, d4] ++ "_report.xlsx".data from rfl]
    rw [hb, hs,
      findMatch_leftmost _ 0 ([c1, c2, c3], [d1, d2, d3, d4])
        (by rw [List.drop_zero]; exact hm7) (fun j hj => absurd hj (Nat.not_lt_zero j))]
    dsimp only
    rw [hlook]
  · intro filename hno
    cases hf : findMatch (stemOf (basenameOf filename.data)) with
    | none =>
      unfold extract_date_from_filename
      rw [hf]
    | some p =>
      obtain ⟨mon, yr⟩ := p
      obtain ⟨i, hi, hm⟩ := findMatch_sound _ _ hf
      have hthis := hno i hi
      rw [monthYearAt, hm] at hthis
      dsimp only at hthis
      unfold extract_date_from_filename
      rw [hf]
      dsimp only
      cases hg : month_map_get (capitalize mon) with
      | none => rfl
      | some mm =>
        rw [hg] at hthis
        simp at hthis

/-- C4 witness: `"jAN2024_report.xlsx"` resolves to `2024-01-01`, and
`"report.xlsx"` (no month+year substring in its stem) resolves to no date. -/
theorem C4_month_year_resolution_witness :
    extract_date_from_filename
        (String.mk (['j', 'A', 'N', '2', '0', '2', '4'] ++ "_report.xlsx".data))
      = some (String.mk (['2', '0', '2', '4'] ++ ('-' :: "01".data) ++ ['-', '0', '1'])) ∧
    extract_date_from_filename "report.xlsx" = none :=
  ⟨C4_month_year_resolution.1 'j' 'A' 'N' '2' '0' '2' '4' "01".data
      (by decide) (by decide) (by decide) (by decide) (by decide) (by decide) (by decide)
      (by decide),
   C4_month_year_resolution.2 "report.xlsx" (by decide)⟩

end ForecastService
